import Mathlib

/-!
Verification of the MCP client core (Az-AIAgentSvc-MCP).

Shallow embedding of:
  * `client.py`    — `ServerConnection` (connect/list_tools/execute_tool/cleanup)
                     and `Tool.validate_arguments`;
  * `mcp_tools.py` — the function-adapter argument normalization (`tool_func`),
                     discovery (`create_mcp_functions`) and `is_mcp_function`;
  * `mcp_direct.py`— the direct executor (`execute_mcp_tool_directly`,
                     `execute_mcp_tool_async`).

Python runtime values are modelled by `PyValue`; Python `isinstance` checks
follow CPython semantics (in particular `bool` is a subclass of `int`).
External library functions (`json.loads`, `json.dumps`, `str`) are modelled as
explicit function parameters; theorems state their assumptions about them as
hypotheses, and witnesses instantiate them with small stub functions that agree
with the library on the concrete strings involved.
-/

/-- Model of a Python runtime value as it occurs in this code base:
strings, ints, floats, bools (distinct from ints as constructors, with
`isinstance` compatibility handled separately), lists, dicts (as
insertion-ordered association lists) and `None`. -/
inductive PyValue where
  | none : PyValue
  | bool : Bool → PyValue
  | int : Int → PyValue
  | float : ℚ → PyValue
  | str : String → PyValue
  | list : List PyValue → PyValue
  | dict : List (String × PyValue) → PyValue

/-- Python `isinstance(v, str)`. -/
def pyIsStr : PyValue → Bool
  | .str _ => true
  | _ => false

/-- Python `isinstance(v, int)`: true for ints and for bools, since `bool`
is a subclass of `int` in CPython. -/
def pyIsInt : PyValue → Bool
  | .int _ => true
  | .bool _ => true
  | _ => false

/-- Python `isinstance(v, (int, float))`: ints, bools and floats. -/
def pyIsNum : PyValue → Bool
  | .int _ => true
  | .bool _ => true
  | .float _ => true
  | _ => false

/-- Python `isinstance(v, bool)`. -/
def pyIsBool : PyValue → Bool
  | .bool _ => true
  | _ => false

/-- Python `isinstance(v, list)`. -/
def pyIsList : PyValue → Bool
  | .list _ => true
  | _ => false

/-- Python `isinstance(v, dict)`. -/
def pyIsDict : PyValue → Bool
  | .dict _ => true
  | _ => false

/-- Stub for `json.loads` restricted to the concrete strings exercised by the
witnesses and counterexamples: the document `{"a":1}` (braces escaped) parses
to the mapping `a ↦ 1`; the strings `not-json` and the empty string are not
valid JSON documents and fail to parse. Used only to instantiate the `loads`
parameter of the theorems at concrete inputs. -/
def jsonLoadsStub : String → Option PyValue := fun s =>
  if s = "\x7b\"a\":1\x7d" then some (.dict [("a", .int 1)])
  else Option.none

/-- Embedding of the argument normalization of
`mcp_direct.execute_mcp_tool_directly` (mcp_direct.py lines 37-53):
start from `args_to_use = {}`; if `arguments` is a dict containing the key
`"kwargs"`: when that value is a string, the empty string gives `{}`, a string
that parses as JSON gives the parsed value, and a string that fails to parse
gives the fallback `{"value": raw}`; a non-string `kwargs` value is used
directly; a dict without `"kwargs"` passes through unchanged; a non-dict
leaves the initial `{}`. -/
def normalize_direct (loads : String → Option PyValue) (arguments : PyValue) :
    PyValue :=
  match arguments with
  | .dict m =>
    match m.lookup "kwargs" with
    | some (.str s) =>
        if s = "" then .dict []
        else
          match loads s with
          | some v => v
          | Option.none => .dict [("value", .str s)]
    | some v => v
    | Option.none => .dict m
  | _ => .dict []

/-- Embedding of the argument normalization of the adapter-layer callable
`tool_func` (mcp_tools.py lines 60-91). The callable receives a positional
`kwargs` parameter (default `None`, modelled as `Option PyValue`) and a
`**args` keyword mapping. First phase (lines 65-78): a string `kwargs` decodes
as JSON with the empty-string and `{"value": raw}` fallbacks; a non-string
non-None `kwargs` is used directly; otherwise the keyword mapping is used.
Second phase (lines 81-91): if the result is a dict whose `"kwargs"` key holds
a string, the empty string gives `{}`, a parsable string gives the parsed
value, and a string that fails to parse leaves the mapping as is (the
`except` branch is `pass`). -/
def tool_func_normalize (loads : String → Option PyValue)
    (kwargs : Option PyValue) (args : List (String × PyValue)) : PyValue :=
  let args_to_use : PyValue :=
    match kwargs with
    | some (.str s) =>
        if s = "" then .dict []
        else
          match loads s with
          | some v => v
          | Option.none => .dict [("value", .str s)]
    | some v => v
    | Option.none => .dict args
  match args_to_use with
  | .dict m =>
    match m.lookup "kwargs" with
    | some (.str s) =>
        if s = "" then .dict []
        else
          match loads s with
          | some v => v
          | Option.none => .dict m
    | _ => .dict m
  | v => v

/-- Result of `Tool.validate_arguments` when validation fails
(client.py lines 334-359). The Python code returns
`(False, message)`; the message names the offending parameter and, for type
errors, the expected kind, which we model structurally. -/
inductive ValidationError where
  | missingRequired (param : String)
  | wrongType (param : String) (expected : String)
deriving DecidableEq, Repr

/-- Embedding of the `Tool` class (client.py lines 290-361): name, description
and the two projections of the input schema used by validation —
`_required_params = input_schema.get("required", [])` and, for each entry of
`input_schema.get("properties", {})`, the optional type tag
`param_schema.get("type")`. -/
structure Tool where
  name : String
  description : String
  required_params : List String
  properties : List (String × Option String)

/-- First loop of `validate_arguments` (client.py lines 334-337): for each
`param` in the required list, fail if it is not a key of `arguments`. -/
def Tool.checkRequired (args : List (String × PyValue)) :
    List String → Option ValidationError
  | [] => Option.none
  | param :: rest =>
    if (args.lookup param).isNone then some (.missingRequired param)
    else Tool.checkRequired args rest

/-- The if/elif chain of `validate_arguments` (client.py lines 345-359) for a
single parameter whose schema has the given optional type tag: each branch
fires when the tag matches and the `isinstance` check fails; an absent or
unrecognised tag checks nothing. -/
def Tool.typeCheck (param_name : String) (param_type : Option String)
    (v : PyValue) : Option ValidationError :=
  match param_type with
  | Option.none => Option.none
  | some ty =>
    if ty == "string" && !pyIsStr v then some (.wrongType param_name "string")
    else if ty == "number" && !pyIsNum v then
      some (.wrongType param_name "number")
    else if ty == "integer" && !pyIsInt v then
      some (.wrongType param_name "integer")
    else if ty == "boolean" && !pyIsBool v then
      some (.wrongType param_name "boolean")
    else if ty == "array" && !pyIsList v then
      some (.wrongType param_name "array")
    else if ty == "object" && !pyIsDict v then
      some (.wrongType param_name "object")
    else Option.none

/-- Second loop of `validate_arguments` (client.py lines 340-359): iterate the
argument mapping in insertion order; parameters that appear in the property
definitions of the schema are checked against their declared type tag; the first
failure is returned. -/
def Tool.checkTypes (props : List (String × Option String)) :
    List (String × PyValue) → Option ValidationError
  | [] => Option.none
  | (param_name, v) :: rest =>
    match props.lookup param_name with
    | some param_type =>
      match Tool.typeCheck param_name param_type v with
      | some e => some e
      | Option.none => Tool.checkTypes props rest
    | Option.none => Tool.checkTypes props rest

/-- Embedding of `Tool.validate_arguments` (client.py lines 322-361):
required-parameter check first, then per-parameter type checks; `none` means
the Python function returned `(True, None)`. -/
def Tool.validate_arguments (t : Tool) (args : List (String × PyValue)) :
    Option ValidationError :=
  match Tool.checkRequired args t.required_params with
  | some e => some e
  | Option.none => Tool.checkTypes t.properties args

/-- Whether one argument entry would fail the type check: its name appears in
the property definitions and the declared tag rejects the value. Derived
directly from `Tool.checkTypes`; used to state when validation must report a
type failure. -/
def Tool.hasTypeMismatch (props : List (String × Option String))
    (pv : String × PyValue) : Bool :=
  match props.lookup pv.1 with
  | some pt => (Tool.typeCheck pv.1 pt pv.2).isSome
  | Option.none => false

/-- A tool record as returned by the server transport
(`session.list_tools().tools`): attribute access `tool.name`,
`tool.description`, `tool.inputSchema`. -/
structure MCPTool where
  name : String
  description : String
  inputSchema : PyValue

/-- The dictionary built per tool by `ServerConnection.list_tools`
(client.py lines 194-201). -/
structure ToolDict where
  name : String
  description : String
  input_schema : PyValue

/-- Exceptions raised by the embedded code paths: `RuntimeError("Not connected
to MCP server")`, `ValueError` for an unknown tool (naming the tool), and the
wrapping `Exception` raised after retry exhaustion (naming the tool and
carrying the message of the last underlying exception). -/
inductive PyError where
  | runtimeNotConnected
  | valueToolNotFound (tool : String)
  | execFailed (tool : String) (cause : String)
deriving DecidableEq, Repr

/-- Mutable state of a `ServerConnection` (client.py lines 116-128):
whether `self.session` is non-None, the `self._tools_cache` contents, and the
`self.connected` flag. The server URL and exit stack are not modelled. -/
structure ConnState where
  session : Bool
  tools_cache : Option (List ToolDict)
  connected : Bool

/-- Embedding of `ServerConnection.list_tools` (client.py lines 179-203):
raises if there is no session; on a cache miss fetches the server catalogue
(modelled by `server_tools`) and caches the projected dictionaries; on a hit
returns the cache. The returned `Nat` counts network fetches performed by
this call (0 or 1). -/
def list_tools (st : ConnState) (server_tools : List MCPTool) :
    Except PyError (List ToolDict × ConnState × Nat) :=
  if st.session = false then .error .runtimeNotConnected
  else
    match st.tools_cache with
    | Option.none =>
      let tools := server_tools.map fun t =>
        ⟨t.name, t.description, t.inputSchema⟩
      .ok (tools, { st with tools_cache := some tools }, 1)
    | some tools => .ok (tools, st, 0)

/-- Embedding of `ServerConnection.cleanup` (client.py lines 274-287): inside
the lock, `exit_stack.aclose()` runs first; only if it does not raise are
`session`, `_tools_cache` and `connected` reset; an exception from `aclose` is
caught and logged, so cleanup itself never raises, but the resets are then
skipped. `aclose_fails` says whether the resource release raises. -/
def cleanup (st : ConnState) (aclose_fails : Bool) : ConnState :=
  if aclose_fails then st
  else { st with session := false, tools_cache := Option.none,
                 connected := false }

/-- One element of a tool-call response content sequence, exposing `text`. -/
structure ContentItem where
  text : String

/-- Outcome of one `execute_tool` run: the returned value or the raised
exception. -/
inductive ExecResult where
  | ok (v : PyValue)
  | err (e : PyError)

/-- Observable trace of one `execute_tool` run: its outcome, the number of
`session.call_tool` invocations performed, and the sleeps executed between
attempts, in order. -/
structure ExecTrace where
  result : ExecResult
  attempts : Nat
  delays : List ℚ

/-- Result shaping on a successful transport call (client.py lines 249-255):
`result and result.content` truthiness selects the first content element,
whose text is parsed as JSON with a raw-text fallback; a missing result or
empty content yields the error-marker mapping. -/
def shape_result (loads : String → Option PyValue)
    (res : Option (List ContentItem)) : PyValue :=
  match res with
  | some (c :: _) =>
    match loads c.text with
    | some v => v
    | Option.none => .dict [("text", .str c.text)]
  | _ => .dict [("error", .str "No content received from tool")]

/-- The retry loop of `execute_tool` (client.py lines 238-272). `call k` is
the outcome of `session.call_tool` on the (0-based) attempt `k`: a response or
an exception message. `remaining` is `retries - attempt`; on failure with
retries left, the loop sleeps `retry_delay * 2 ^ attempt` (the code computes
`retry_delay * 2 ** (attempt - 1)` after incrementing `attempt`) and retries;
on exhaustion it raises the wrapping exception naming the tool and the last
cause. -/
def executeLoop (loads : String → Option PyValue) (tool_name : String)
    (call : Nat → Except String (Option (List ContentItem)))
    (retry_delay : ℚ) (remaining attempt : Nat) : ExecTrace :=
  match call attempt with
  | .ok res => ⟨.ok (shape_result loads res), 1, []⟩
  | .error e =>
    match remaining with
    | 0 => ⟨.err (.execFailed tool_name e), 1, []⟩
    | r + 1 =>
      let tr := executeLoop loads tool_name call retry_delay r (attempt + 1)
      ⟨tr.result, tr.attempts + 1, retry_delay * 2 ^ attempt :: tr.delays⟩

/-- Embedding of `ServerConnection.execute_tool` (client.py lines 205-272):
not-connected check, tool-existence check against the (possibly cached)
listing, then the retry loop starting at attempt 0. The trace counts only
`session.call_tool` invocations, not the listing fetch. -/
def execute_tool (loads : String → Option PyValue) (st : ConnState)
    (server_tools : List MCPTool) (tool_name : String)
    (call : Nat → Except String (Option (List ContentItem)))
    (retries : Nat) (retry_delay : ℚ) : ExecTrace :=
  if st.session = false then ⟨.err .runtimeNotConnected, 0, []⟩
  else
    match list_tools st server_tools with
    | .error e => ⟨.err e, 0, []⟩
    | .ok (tools, _, _) =>
      if tools.any (fun t => t.name == tool_name) = false then
        ⟨.err (.valueToolNotFound tool_name), 0, []⟩
      else executeLoop loads tool_name call retry_delay retries 0

/-- Module-level initial value of `create_mcp_functions.mcp_tool_names`
(mcp_tools.py line 128): the empty list, before any discovery has run. -/
def mcp_tool_names_initial : List String := []

/-- The tool-name registry produced by one `create_mcp_functions` run
(mcp_tools.py lines 37-47): on a successful fetch, the names of the listed
tools; on any exception during the fetch, the registry stays empty (the
exception is logged and the tool list degrades to `[]`). -/
def create_mcp_functions_tool_names
    (fetch : Except String (List ToolDict)) : List String :=
  match fetch with
  | .ok tools => tools.map ToolDict.name
  | .error _ => []

/-- Embedding of `is_mcp_function` (mcp_tools.py lines 115-125): membership of
`name` in the current `create_mcp_functions.mcp_tool_names` registry. -/
def is_mcp_function (mcp_tool_names : List String) (name : String) : Bool :=
  mcp_tool_names.contains name

/-- Embedding of `execute_mcp_tool_directly` (mcp_direct.py lines 24-64):
normalize the arguments, build a fresh connection (whose state after
`connect()` is modelled by `connect_ok`: session present and connected flag
set only on success; `connect` swallows its own failures and returns False),
then run `execute_tool` with the default `retries=3`, `retry_delay=1.0`.
There is no exception handling here, so any exception raised by
`execute_tool` propagates to the caller (modelled by `.error`). `call` takes
the normalized arguments that the remote call receives. -/
def execute_mcp_tool_directly (loads : String → Option PyValue)
    (connect_ok : Bool) (server_tools : List MCPTool) (function_name : String)
    (arguments : PyValue)
    (call : PyValue → Nat → Except String (Option (List ContentItem))) :
    Except PyError PyValue :=
  let args_to_use := normalize_direct loads arguments
  let st : ConnState := ⟨connect_ok, Option.none, connect_ok⟩
  let tr := execute_tool loads st server_tools function_name
    (call args_to_use) 3 1
  match tr.result with
  | .ok v => .ok v
  | .err e => .error e

/-- Embedding of `execute_mcp_tool_async` (mcp_direct.py lines 67-81): calls
`execute_mcp_tool_directly` with no exception handling (errors propagate) and
JSON-encodes a dict result via `json.dumps` (parameter `dumps`), stringifying
any other result via `str` (parameter `strOf`). -/
def execute_mcp_tool_async (loads : String → Option PyValue)
    (dumps strOf : PyValue → String)
    (connect_ok : Bool) (server_tools : List MCPTool) (function_name : String)
    (arguments : PyValue)
    (call : PyValue → Nat → Except String (Option (List ContentItem))) :
    Except PyError String :=
  match execute_mcp_tool_directly loads connect_ok server_tools function_name
      arguments call with
  | .ok v =>
    match v with
    | .dict m => .ok (dumps (.dict m))
    | v => .ok (strOf v)
  | .error e => .error e

example :
    normalize_direct jsonLoadsStub (.dict [("kwargs", .str "")]) = .dict [] :=
  rfl

example :
    normalize_direct jsonLoadsStub (.dict [("kwargs", .str "not-json")]) =
      .dict [("value", .str "not-json")] :=
  rfl

example :
    normalize_direct jsonLoadsStub (.dict [("kwargs", .str "\x7b\"a\":1\x7d")]) =
      .dict [("a", .int 1)] :=
  rfl

example :
    tool_func_normalize jsonLoadsStub
      (some (.dict [("kwargs", .str "not-json")])) [] =
      .dict [("kwargs", .str "not-json")] :=
  rfl

theorem delay_range_cons (d : ℚ) (a n : Nat) :
    ((List.range (n + 1)).map fun k => d * 2 ^ (a + k)) =
      d * 2 ^ a :: ((List.range n).map fun k => d * 2 ^ (a + 1 + k)) := by
  rw [List.range_succ_eq_map]
  simp only [List.map_cons, List.map_map, Nat.add_zero]
  refine congrArg _ (List.map_congr_left fun k _ => ?_)
  simp only [Function.comp_apply]
  rw [show a + (k + 1) = a + 1 + k by omega]

theorem executeLoop_allFail (loads : String → Option PyValue) (tool : String)
    (m : Nat → String) (d : ℚ) (remaining : Nat) :
    ∀ attempt : Nat,
      executeLoop loads tool (fun k => .error (m k)) d remaining attempt =
        ⟨.err (.execFailed tool (m (attempt + remaining))), remaining + 1,
         (List.range remaining).map fun k => d * 2 ^ (attempt + k)⟩ := by
  induction remaining with
  | zero => intro attempt; simp [executeLoop]
  | succ r ih =>
    intro attempt
    rw [executeLoop]
    simp only []
    rw [ih (attempt + 1), delay_range_cons,
      show attempt + 1 + r = attempt + (r + 1) by omega]

theorem executeLoop_failThenSucceed (loads : String → Option PyValue)
    (tool : String) (m : Nat → String) (d : ℚ) (N : Nat)
    (res : Option (List ContentItem)) (remaining : Nat) :
    ∀ attempt : Nat, N ≤ attempt + remaining → attempt ≤ N →
      executeLoop loads tool
          (fun k => if k < N then .error (m k) else .ok res) d remaining
          attempt =
        ⟨.ok (shape_result loads res), N - attempt + 1,
         (List.range (N - attempt)).map fun k => d * 2 ^ (attempt + k)⟩ := by
  induction remaining with
  | zero =>
    intro attempt h1 h2
    have ha : attempt = N := by omega
    subst ha
    simp [executeLoop]
  | succ r ih =>
    intro attempt h1 h2
    by_cases hlt : attempt < N
    · rw [executeLoop]
      simp only [if_pos hlt]
      rw [ih (attempt + 1) (by omega) (by omega)]
      have hsub : N - attempt = (N - (attempt + 1)) + 1 := by omega
      rw [hsub, delay_range_cons]
    · have ha : attempt = N := by omega
      subst ha
      simp [executeLoop]

theorem execute_tool_found (loads : String → Option PyValue) (st : ConnState)
    (server_tools : List MCPTool) (tool_name : String) (tools : List ToolDict)
    (st2 : ConnState) (nf : Nat) (hs : st.session = true)
    (hlist : list_tools st server_tools = .ok (tools, st2, nf))
    (hfound : tools.any (fun t => t.name == tool_name) = true)
    (call : Nat → Except String (Option (List ContentItem)))
    (retries : Nat) (d : ℚ) :
    execute_tool loads st server_tools tool_name call retries d =
      executeLoop loads tool_name call d retries 0 := by
  simp [execute_tool, hs, hlist, hfound]

/-- C1: on a connected connection whose listing contains the tool, with
`retries = R` and base delay `d > 0`: if every attempt fails, `execute_tool`
performs exactly `R + 1` attempts, sleeps `d * 2 ^ (k - 1)` before retry `k`
for `k = 1..R`, and raises the wrapping error naming the tool and carrying
the last underlying cause; if the call fails on the first `N ≤ R` attempts
and then succeeds, it returns the shaped result after `N + 1` attempts with
those same delays. -/
theorem execute_tool_retry_backoff (loads : String → Option PyValue)
    (st : ConnState) (server_tools : List MCPTool) (tool : String)
    (tools : List ToolDict) (st2 : ConnState) (nf : Nat)
    (hs : st.session = true)
    (hlist : list_tools st server_tools = .ok (tools, st2, nf))
    (hfound : tools.any (fun t => t.name == tool) = true)
    (R N : Nat) (d : ℚ) (hd : 0 < d) (hN : N ≤ R) (m : Nat → String)
    (res : Option (List ContentItem)) :
    (execute_tool loads st server_tools tool (fun k => .error (m k)) R d =
      ⟨.err (.execFailed tool (m R)), R + 1,
       (List.range R).map fun k => d * 2 ^ k⟩) ∧
    (execute_tool loads st server_tools tool
        (fun k => if k < N then .error (m k) else .ok res) R d =
      ⟨.ok (shape_result loads res), N + 1,
       (List.range N).map fun k => d * 2 ^ k⟩) := by
  constructor
  · rw [execute_tool_found loads st server_tools tool tools st2 nf hs hlist
      hfound, executeLoop_allFail]
    simp
  · rw [execute_tool_found loads st server_tools tool tools st2 nf hs hlist
      hfound, executeLoop_failThenSucceed loads tool m d N res R 0 (by omega)
      (by omega)]
    simp

/-- Witness for C1: two failing attempts then exhaustion with `R = 2`, and
one failing attempt then success with `N = 1 ≤ 2`, at base delay 1. -/
theorem execute_tool_retry_backoff_witness :
    (execute_tool jsonLoadsStub ⟨true, Option.none, true⟩ [⟨"t", "", .none⟩]
        "t" (fun _ => .error "boom") 2 1 =
      ⟨.err (.execFailed "t" "boom"), 2 + 1,
       (List.range 2).map fun k => (1 : ℚ) * 2 ^ k⟩) ∧
    (execute_tool jsonLoadsStub ⟨true, Option.none, true⟩ [⟨"t", "", .none⟩]
        "t" (fun k => if k < 1 then .error "boom" else .ok Option.none) 2 1 =
      ⟨.ok (shape_result jsonLoadsStub Option.none), 1 + 1,
       (List.range 1).map fun k => (1 : ℚ) * 2 ^ k⟩) :=
  execute_tool_retry_backoff jsonLoadsStub ⟨true, Option.none, true⟩
    [⟨"t", "", .none⟩] "t" [⟨"t", "", .none⟩]
    ⟨true, some [⟨"t", "", .none⟩], true⟩ 1 rfl rfl rfl 2 1 1 (by norm_num)
    (by norm_num) (fun _ => "boom") Option.none

/-- C6: on a connected connection, executing a tool name absent from the
(possibly cached) listing raises the tool-not-found error with zero
`call_tool` attempts and no retry sleeps. -/
theorem execute_tool_unknown_tool (loads : String → Option PyValue)
    (st : ConnState) (server_tools : List MCPTool) (tool : String)
    (tools : List ToolDict) (st2 : ConnState) (nf : Nat)
    (hs : st.session = true)
    (hlist : list_tools st server_tools = .ok (tools, st2, nf))
    (hnot : tools.any (fun t => t.name == tool) = false)
    (call : Nat → Except String (Option (List ContentItem)))
    (retries : Nat) (d : ℚ) :
    execute_tool loads st server_tools tool call retries d =
      ⟨.err (.valueToolNotFound tool), 0, []⟩ := by
  simp [execute_tool, hs, hlist, hnot]

/-- Witness for C6: a server listing only `t`, executed with name
`missing`. -/
theorem execute_tool_unknown_tool_witness :
    execute_tool jsonLoadsStub ⟨true, Option.none, true⟩ [⟨"t", "", .none⟩]
        "missing" (fun _ => .ok Option.none) 3 1 =
      ⟨.err (.valueToolNotFound "missing"), 0, []⟩ :=
  execute_tool_unknown_tool jsonLoadsStub ⟨true, Option.none, true⟩
    [⟨"t", "", .none⟩] "missing" [⟨"t", "", .none⟩]
    ⟨true, some [⟨"t", "", .none⟩], true⟩ 1 rfl rfl rfl
    (fun _ => .ok Option.none) 3 1

/-- C5: on a successful remote call, `execute_tool` returns the shaped
result: content text that parses as JSON yields the parsed structure; content
text that fails to parse yields the raw-text mapping; a response with no
content yields the error-marker mapping, not a raised exception. -/
theorem execute_tool_result_shaping (loads : String → Option PyValue)
    (st : ConnState) (server_tools : List MCPTool) (tool : String)
    (tools : List ToolDict) (st2 : ConnState) (nf : Nat)
    (hs : st.session = true)
    (hlist : list_tools st server_tools = .ok (tools, st2, nf))
    (hfound : tools.any (fun t => t.name == tool) = true)
    (R : Nat) (d : ℚ) (res : Option (List ContentItem))
    (textJ textR : String) (v : PyValue) (rest : List ContentItem)
    (hJ : loads textJ = some v) (hR : loads textR = Option.none) :
    (execute_tool loads st server_tools tool (fun _ => .ok res) R d =
      ⟨.ok (shape_result loads res), 1, []⟩) ∧
    (shape_result loads (some (⟨textJ⟩ :: rest)) = v) ∧
    (shape_result loads (some (⟨textR⟩ :: rest)) =
      .dict [("text", .str textR)]) ∧
    (shape_result loads (some []) =
      .dict [("error", .str "No content received from tool")]) ∧
    (shape_result loads Option.none =
      .dict [("error", .str "No content received from tool")]) := by
  refine ⟨?_, ?_, ?_, rfl, rfl⟩
  · rw [execute_tool_found loads st server_tools tool tools st2 nf hs hlist
      hfound, executeLoop]
  · simp [shape_result, hJ]
  · simp [shape_result, hR]

/-- Witness for C5: a one-tool server; the JSON document parses to the
mapping `a ↦ 1`, the string `not-json` falls back to the raw-text mapping,
and the empty-content cases produce the error marker. -/
theorem execute_tool_result_shaping_witness :
    (execute_tool jsonLoadsStub ⟨true, Option.none, true⟩ [⟨"t", "", .none⟩]
        "t" (fun _ => .ok (some [])) 3 1 =
      ⟨.ok (shape_result jsonLoadsStub (some [])), 1, []⟩) ∧
    (shape_result jsonLoadsStub (some [⟨"\x7b\"a\":1\x7d"⟩]) =
      .dict [("a", .int 1)]) ∧
    (shape_result jsonLoadsStub (some [⟨"not-json"⟩]) =
      .dict [("text", .str "not-json")]) ∧
    (shape_result jsonLoadsStub (some []) =
      .dict [("error", .str "No content received from tool")]) ∧
    (shape_result jsonLoadsStub Option.none =
      .dict [("error", .str "No content received from tool")]) :=
  execute_tool_result_shaping jsonLoadsStub ⟨true, Option.none, true⟩
    [⟨"t", "", .none⟩] "t" [⟨"t", "", .none⟩]
    ⟨true, some [⟨"t", "", .none⟩], true⟩ 1 rfl rfl rfl 3 1 (some [])
    "\x7b\"a\":1\x7d" "not-json" (.dict [("a", .int 1)]) [] rfl rfl

/-- C3 counterexample: when the internal resource release
(`exit_stack.aclose()`) raises, the `except` branch swallows the exception but
the resets of `session`, `_tools_cache` and `connected` are skipped, so a
previously connected state keeps `connected = true` and its session — the
claim says they must be false and null after every `cleanup()` call. -/
theorem cleanup_counterexample :
    (cleanup ⟨true, Option.none, true⟩ true).connected = true ∧
    (cleanup ⟨true, Option.none, true⟩ true).session = true :=
  ⟨rfl, rfl⟩

/-- C3 (amended): `cleanup` never raises (it is a total function on states)
and is safe to call repeatedly; when the internal resource release succeeds
the connected flag is false, the session is null and the tool-schema cache is
reset afterwards, and repeating the call is a no-op; but when the release
fails, the exception is swallowed and the state fields keep their previous
values. -/
theorem cleanup_spec (st : ConnState) :
    (cleanup st false).connected = false ∧
    (cleanup st false).session = false ∧
    (cleanup st false).tools_cache = Option.none ∧
    cleanup (cleanup st false) false = cleanup st false ∧
    cleanup st true = st := by
  simp [cleanup]

/-- C7: with no active session, `list_tools` raises the not-connected error;
on a connected state, the first call returns some listing with at most one
network fetch and leaves a state from which the second call returns the same
listing with zero fetches. -/
theorem list_tools_cache_spec (st : ConnState) (srv : List MCPTool) :
    (st.session = false → list_tools st srv = .error .runtimeNotConnected) ∧
    (st.session = true →
      ∃ r s1 n1, list_tools st srv = .ok (r, s1, n1) ∧ n1 ≤ 1 ∧
        list_tools s1 srv = .ok (r, s1, 0)) := by
  constructor
  · intro h
    simp [list_tools, h]
  · intro h
    cases hc : st.tools_cache with
    | none =>
      have h1 : list_tools st srv =
          .ok (srv.map fun t => ⟨t.name, t.description, t.inputSchema⟩,
            { st with tools_cache := some (srv.map fun t =>
                ⟨t.name, t.description, t.inputSchema⟩) }, 1) := by
        simp [list_tools, h, hc]
      have h2 : list_tools
          { st with tools_cache := some (srv.map fun t =>
              (⟨t.name, t.description, t.inputSchema⟩ : ToolDict)) } srv =
          .ok (srv.map fun t => ⟨t.name, t.description, t.inputSchema⟩,
            { st with tools_cache := some (srv.map fun t =>
                ⟨t.name, t.description, t.inputSchema⟩) }, 0) := by
        simp [list_tools, h]
      exact ⟨_, _, _, h1, by omega, h2⟩
    | some tools =>
      exact ⟨tools, st, 0, by simp [list_tools, h, hc], by omega,
        by simp [list_tools, h, hc]⟩

/-- Witness for C7 at a concrete disconnected state and a concrete connected
state with a one-tool server. -/
theorem list_tools_cache_spec_witness :
    (list_tools ⟨false, Option.none, false⟩ [⟨"t", "d", .none⟩] =
      .error .runtimeNotConnected) ∧
    (∃ r s1 n1,
      list_tools ⟨true, Option.none, true⟩ [⟨"t", "d", .none⟩] =
        .ok (r, s1, n1) ∧ n1 ≤ 1 ∧ list_tools s1 [⟨"t", "d", .none⟩] =
        .ok (r, s1, 0)) :=
  ⟨(list_tools_cache_spec ⟨false, Option.none, false⟩ [⟨"t", "d", .none⟩]).1
      rfl,
   (list_tools_cache_spec ⟨true, Option.none, true⟩ [⟨"t", "d", .none⟩]).2
      rfl⟩

/-- C9: `is_mcp_function` is false on the initial (pre-discovery) registry,
true after a successful discovery exactly for the names the discovery
returned, and false for every name after a failed discovery, which degrades
the registry to the empty list. -/
theorem is_mcp_function_spec (name : String) (tools : List ToolDict)
    (e : String) :
    (is_mcp_function mcp_tool_names_initial name = false) ∧
    (is_mcp_function (create_mcp_functions_tool_names (.ok tools)) name =
        true ↔ name ∈ tools.map ToolDict.name) ∧
    (is_mcp_function (create_mcp_functions_tool_names (.error e)) name =
      false) := by
  refine ⟨rfl, ?_, rfl⟩
  simp [is_mcp_function, create_mcp_functions_tool_names, List.contains]

/-- C10: because CPython `bool` is a subclass of `int`, a parameter declared
`integer` or `number` accepts a boolean value, while a parameter declared
`boolean` rejects a non-boolean integer with a failure naming the parameter
and the expected kind. -/
theorem validate_arguments_bool_int (tname tdesc p : String) (b : Bool)
    (n : Int) :
    (Tool.validate_arguments ⟨tname, tdesc, [], [(p, some "integer")]⟩
      [(p, .bool b)] = Option.none) ∧
    (Tool.validate_arguments ⟨tname, tdesc, [], [(p, some "number")]⟩
      [(p, .bool b)] = Option.none) ∧
    (Tool.validate_arguments ⟨tname, tdesc, [], [(p, some "boolean")]⟩
      [(p, .int n)] = some (.wrongType p "boolean")) := by
  refine ⟨?_, ?_, ?_⟩ <;>
  simp [Tool.validate_arguments, Tool.checkRequired, Tool.checkTypes,
    Tool.typeCheck, List.lookup, pyIsStr, pyIsInt, pyIsNum, pyIsBool,
    pyIsList, pyIsDict]

theorem checkRequired_all_present (args : List (String × PyValue)) :
    ∀ req : List String, (∀ p ∈ req, (args.lookup p).isSome) →
      Tool.checkRequired args req = Option.none
  | [], _ => rfl
  | p :: rest, h => by
    have h1 : (args.lookup p).isNone = false := by
      have h2 := h p (List.mem_cons_self p rest)
      cases hx : args.lookup p with
      | none => rw [hx] at h2; simp at h2
      | some v => simp
    rw [Tool.checkRequired, if_neg (by simp [h1])]
    exact checkRequired_all_present args rest
      fun q hq => h q (List.mem_cons_of_mem _ hq)

theorem checkRequired_missing (args : List (String × PyValue)) :
    ∀ req : List String, (∃ p ∈ req, (args.lookup p).isNone) →
      ∃ q ∈ req, (args.lookup q).isNone ∧
        Tool.checkRequired args req = some (.missingRequired q)
  | [], h => absurd h (by simp)
  | p :: rest, h => by
    cases hx : (args.lookup p).isNone with
    | true =>
      exact ⟨p, List.mem_cons_self p rest, hx,
        by rw [Tool.checkRequired, if_pos hx]⟩
    | false =>
      obtain ⟨q0, hq0, hmiss⟩ := h
      have hq0r : q0 ∈ rest := by
        rcases List.mem_cons.1 hq0 with he | hr
        · exact absurd hmiss (by rw [he, hx]; simp)
        · exact hr
      obtain ⟨q, hq, hmq, heq⟩ :=
        checkRequired_missing args rest ⟨q0, hq0r, hmiss⟩
      exact ⟨q, List.mem_cons_of_mem _ hq, hmq,
        by rw [Tool.checkRequired, if_neg (by simp [hx])]; exact heq⟩

theorem typeCheck_isSome_eq (name : String) (pt : Option String) (v : PyValue)
    (h : (Tool.typeCheck name pt v).isSome) :
    ∃ ty, pt = some ty ∧
      Tool.typeCheck name pt v = some (.wrongType name ty) := by
  match pt with
  | Option.none => simp [Tool.typeCheck] at h
  | some ty =>
    refine ⟨ty, rfl, ?_⟩
    simp only [Tool.typeCheck] at h ⊢
    split_ifs at h ⊢ with h1 h2 h3 h4 h5 h6
    · simp only [Bool.and_eq_true, beq_iff_eq] at h1; rw [h1.1]
    · simp only [Bool.and_eq_true, beq_iff_eq] at h2; rw [h2.1]
    · simp only [Bool.and_eq_true, beq_iff_eq] at h3; rw [h3.1]
    · simp only [Bool.and_eq_true, beq_iff_eq] at h4; rw [h4.1]
    · simp only [Bool.and_eq_true, beq_iff_eq] at h5; rw [h5.1]
    · simp only [Bool.and_eq_true, beq_iff_eq] at h6; rw [h6.1]
    · simp at h

theorem checkTypes_first_mismatch (props : List (String × Option String)) :
    ∀ args : List (String × PyValue),
      (∃ pv ∈ args, Tool.hasTypeMismatch props pv) →
      ∃ q ty, props.lookup q = some (some ty) ∧
        Tool.checkTypes props args = some (.wrongType q ty)
  | [], h => absurd h (by simp)
  | (a, v) :: rest, h => by
    cases hl : props.lookup a with
    | none =>
      have hstep : Tool.checkTypes props ((a, v) :: rest) =
          Tool.checkTypes props rest := by
        simp only [Tool.checkTypes, hl]
      rw [hstep]
      refine checkTypes_first_mismatch props rest ?_
      obtain ⟨pv, hpv, hm⟩ := h
      rcases List.mem_cons.1 hpv with he | hr
      · exfalso
        rw [he] at hm
        simp [Tool.hasTypeMismatch, hl] at hm
      · exact ⟨pv, hr, hm⟩
    | some pt =>
      cases ht : Tool.typeCheck a pt v with
      | none =>
        have hstep : Tool.checkTypes props ((a, v) :: rest) =
            Tool.checkTypes props rest := by
          simp only [Tool.checkTypes, hl, ht]
        rw [hstep]
        refine checkTypes_first_mismatch props rest ?_
        obtain ⟨pv, hpv, hm⟩ := h
        rcases List.mem_cons.1 hpv with he | hr
        · exfalso
          rw [he] at hm
          simp [Tool.hasTypeMismatch, hl, ht] at hm
        · exact ⟨pv, hr, hm⟩
      | some e =>
        have hstep : Tool.checkTypes props ((a, v) :: rest) = some e := by
          simp only [Tool.checkTypes, hl, ht]
        obtain ⟨ty, hty, heq⟩ := typeCheck_isSome_eq a pt v (by rw [ht]; rfl)
        have he2 : e = .wrongType a ty := Option.some.inj (ht.symm.trans heq)
        exact ⟨a, ty, by rw [← hty]; exact hl, by rw [hstep, he2]⟩

/-- C8: validation fails, naming a missing required parameter, whenever some
name in the required list is absent from the arguments; when every required
name is present and some argument present in the property definitions fails
its declared type check, validation returns a failure naming that parameter
and its declared expected kind; concretely, a schema requiring `content`
rejects the empty mapping citing `content` and accepts
`content = "x"`. -/
theorem validate_arguments_spec (t : Tool) (args : List (String × PyValue)) :
    ((∃ p ∈ t.required_params, (args.lookup p).isNone) →
      ∃ q ∈ t.required_params, (args.lookup q).isNone ∧
        t.validate_arguments args = some (.missingRequired q)) ∧
    ((∀ p ∈ t.required_params, (args.lookup p).isSome) →
      (∃ pv ∈ args, Tool.hasTypeMismatch t.properties pv) →
      ∃ q ty, t.properties.lookup q = some (some ty) ∧
        t.validate_arguments args = some (.wrongType q ty)) ∧
    (Tool.validate_arguments
      ⟨"create_blob", "", ["content"], [("content", some "string")]⟩ [] =
      some (.missingRequired "content")) ∧
    (Tool.validate_arguments
      ⟨"create_blob", "", ["content"], [("content", some "string")]⟩
      [("content", .str "x")] = Option.none) := by
  refine ⟨?_, ?_, rfl, rfl⟩
  · intro h
    obtain ⟨q, hq, hmq, heq⟩ := checkRequired_missing args t.required_params h
    exact ⟨q, hq, hmq, by simp only [Tool.validate_arguments, heq]⟩
  · intro hall hex
    obtain ⟨q, ty, h1, h2⟩ := checkTypes_first_mismatch t.properties args hex
    refine ⟨q, ty, h1, ?_⟩
    simp only [Tool.validate_arguments,
      checkRequired_all_present args t.required_params hall]
    exact h2

/-- Witness for C8: a schema requiring `content` rejects the empty argument
mapping citing `content`; a parameter declared `boolean` given the integer 0
yields a failure naming the parameter and the expected kind. -/
theorem validate_arguments_spec_witness :
    (∃ q ∈ (Tool.mk "create_blob" "" ["content"]
        [("content", some "string")]).required_params,
      ((([] : List (String × PyValue)).lookup q).isNone) ∧
        (Tool.mk "create_blob" "" ["content"]
          [("content", some "string")]).validate_arguments [] =
          some (.missingRequired q)) ∧
    (∃ q ty,
      (Tool.mk "w" "" [] [("flag", some "boolean")]).properties.lookup q =
        some (some ty) ∧
      (Tool.mk "w" "" [] [("flag", some "boolean")]).validate_arguments
        [("flag", .int 0)] = some (.wrongType q ty)) :=
  ⟨(validate_arguments_spec (Tool.mk "create_blob" "" ["content"]
      [("content", some "string")]) []).1 (by decide),
   (validate_arguments_spec (Tool.mk "w" "" [] [("flag", some "boolean")])
      [("flag", .int 0)]).2.1 (by decide) (by decide)⟩

/-- C2 counterexample: the claim says the adapter layer also normalizes the
bundle whose nested `kwargs` string is not valid JSON to `{"value": raw}`,
but `tool_func` delivers such a bundle unchanged: its nested-kwargs handler
catches the JSON decode failure with `pass`, keeping `{"kwargs":
"not-json"}` as is. -/
theorem normalize_kwargs_counterexample :
    tool_func_normalize jsonLoadsStub
        (some (.dict [("kwargs", .str "not-json")])) [] =
      .dict [("kwargs", .str "not-json")] ∧
    PyValue.dict [("kwargs", .str "not-json")] ≠
      PyValue.dict [("value", .str "not-json")] := by
  refine ⟨rfl, ?_⟩
  intro h
  injection h with h1
  injection h1 with h2 h3
  injection h2 with h4 h5
  exact absurd h4 (by decide)

/-- C2 (amended): the direct-executor normalization satisfies all four rules
of the claim (empty string to `{}`, JSON string to its parse, non-JSON
string to `{"value": raw}`, flat mapping unchanged). The adapter layer
satisfies the empty-string, JSON and flat-mapping rules, and applies the
`{"value": raw}` fallback only when the kwargs value arrives as the
top-level string parameter; a bundle whose nested `kwargs` string is not
valid JSON passes through unchanged instead. -/
theorem normalize_kwargs_spec (loads : String → Option PyValue)
    (s sj : String) (v : PyValue) (m : List (String × PyValue))
    (hs : ¬ s = "") (hsl : loads s = Option.none)
    (hsj : ¬ sj = "") (hjl : loads sj = some v)
    (hm : m.lookup "kwargs" = Option.none) :
    (normalize_direct loads (.dict [("kwargs", .str "")]) = .dict []) ∧
    (normalize_direct loads (.dict [("kwargs", .str sj)]) = v) ∧
    (normalize_direct loads (.dict [("kwargs", .str s)]) =
      .dict [("value", .str s)]) ∧
    (normalize_direct loads (.dict m) = .dict m) ∧
    (tool_func_normalize loads (some (.dict [("kwargs", .str "")])) [] =
      .dict []) ∧
    (tool_func_normalize loads (some (.dict [("kwargs", .str sj)])) [] =
      v) ∧
    (tool_func_normalize loads (some (.dict [("kwargs", .str s)])) [] =
      .dict [("kwargs", .str s)]) ∧
    (tool_func_normalize loads (some (.dict m)) [] = .dict m) ∧
    (tool_func_normalize loads Option.none m = .dict m) ∧
    (tool_func_normalize loads (some (.str s)) [] =
      .dict [("value", .str s)]) := by
  refine ⟨rfl, ?_, ?_, ?_, rfl, ?_, ?_, ?_, ?_, ?_⟩
  · simp [normalize_direct, List.lookup, hsj, hjl]
  · simp [normalize_direct, List.lookup, hs, hsl]
  · simp [normalize_direct, hm]
  · simp [tool_func_normalize, List.lookup, hsj, hjl]
  · simp [tool_func_normalize, List.lookup, hs, hsl]
  · simp [tool_func_normalize, hm]
  · simp [tool_func_normalize, hm]
  · simp [tool_func_normalize, List.lookup, hs, hsl]

/-- Witness for C2 at the concrete inputs of the spec: the empty string, the JSON
document `{"a":1}` (braces escaped), the non-JSON string `not-json`, and the
flat mapping `{"a": 1}`, with `json.loads` instantiated by its stub. -/
theorem normalize_kwargs_spec_witness :
    (normalize_direct jsonLoadsStub (.dict [("kwargs", .str "")]) =
      .dict []) ∧
    (normalize_direct jsonLoadsStub
      (.dict [("kwargs", .str "\x7b\"a\":1\x7d")]) = .dict [("a", .int 1)]) ∧
    (normalize_direct jsonLoadsStub (.dict [("kwargs", .str "not-json")]) =
      .dict [("value", .str "not-json")]) ∧
    (normalize_direct jsonLoadsStub (.dict [("a", .int 1)]) =
      .dict [("a", .int 1)]) ∧
    (tool_func_normalize jsonLoadsStub
      (some (.dict [("kwargs", .str "")])) [] = .dict []) ∧
    (tool_func_normalize jsonLoadsStub
      (some (.dict [("kwargs", .str "\x7b\"a\":1\x7d")])) [] =
      .dict [("a", .int 1)]) ∧
    (tool_func_normalize jsonLoadsStub
      (some (.dict [("kwargs", .str "not-json")])) [] =
      .dict [("kwargs", .str "not-json")]) ∧
    (tool_func_normalize jsonLoadsStub (some (.dict [("a", .int 1)])) [] =
      .dict [("a", .int 1)]) ∧
    (tool_func_normalize jsonLoadsStub Option.none [("a", .int 1)] =
      .dict [("a", .int 1)]) ∧
    (tool_func_normalize jsonLoadsStub (some (.str "not-json")) [] =
      .dict [("value", .str "not-json")]) :=
  normalize_kwargs_spec jsonLoadsStub "not-json" "\x7b\"a\":1\x7d"
    (.dict [("a", .int 1)]) [("a", .int 1)] (by decide) rfl (by decide) rfl
    rfl

theorem any_map_name (tool : String) :
    ∀ l : List MCPTool,
      ((l.map fun t =>
          (⟨t.name, t.description, t.inputSchema⟩ : ToolDict)).any
        fun td => td.name == tool) = l.any fun t => t.name == tool
  | [] => rfl
  | x :: xs => by
    simp only [List.map_cons, List.any_cons, any_map_name tool xs]

/-- C4 counterexample: when connecting to the server fails, `connect` returns
False without raising, but `execute_mcp_tool_directly` ignores that result
and calls `execute_tool` on a session-less connection, whose
`RuntimeError` propagates uncaught out of both `execute_mcp_tool_directly`
and `execute_mcp_tool_async` — contradicting the claim that no exception
ever escapes their boundary. -/
theorem mcp_direct_boundary_counterexample :
    (execute_mcp_tool_directly jsonLoadsStub false [] "t" (.dict [])
        (fun _ _ => .ok Option.none) = .error .runtimeNotConnected) ∧
    (execute_mcp_tool_async jsonLoadsStub (fun _ => "") (fun _ => "") false
        [] "t" (.dict []) (fun _ _ => .ok Option.none) =
      .error .runtimeNotConnected) :=
  ⟨rfl, rfl⟩

/-- C4 (amended): when the connection succeeds, the named tool exists, and
the remote call eventually succeeds, the Direct Executor returns the
structured result (the async wrapper returns a string); but exceptions are
not caught at its boundary: a connection failure surfaces as the
not-connected error, and retry exhaustion propagates the wrapping
execution error, through both the direct and the async entry points. -/
theorem mcp_direct_boundary_spec (loads : String → Option PyValue)
    (dumps strOf : PyValue → String) (server_tools : List MCPTool)
    (tool : String) (args : PyValue) (m : Nat → String)
    (res : Option (List ContentItem))
    (hfound : server_tools.any (fun t => t.name == tool) = true) :
    (execute_mcp_tool_directly loads false server_tools tool args
        (fun _ k => .error (m k)) = .error .runtimeNotConnected) ∧
    (execute_mcp_tool_directly loads true server_tools tool args
        (fun _ _ => .ok res) = .ok (shape_result loads res)) ∧
    (execute_mcp_tool_directly loads true server_tools tool args
        (fun _ k => .error (m k)) = .error (.execFailed tool (m 3))) ∧
    (∃ out, execute_mcp_tool_async loads dumps strOf true server_tools tool
        args (fun _ _ => .ok res) = .ok out) ∧
    (execute_mcp_tool_async loads dumps strOf true server_tools tool args
        (fun _ k => .error (m k)) = .error (.execFailed tool (m 3))) := by
  have hstl : list_tools ⟨true, Option.none, true⟩ server_tools =
      .ok (server_tools.map fun t => ⟨t.name, t.description, t.inputSchema⟩,
        ⟨true, some (server_tools.map fun t =>
          ⟨t.name, t.description, t.inputSchema⟩), true⟩, 1) := by
    simp [list_tools]
  have hf2 : (server_tools.map fun t =>
      (⟨t.name, t.description, t.inputSchema⟩ : ToolDict)).any
        (fun td => td.name == tool) = true := by
    rw [any_map_name tool server_tools]
    exact hfound
  have hok : ∀ a2 : PyValue,
      execute_mcp_tool_directly loads true server_tools tool args
        (fun _ _ => .ok res) = .ok (shape_result loads res) := by
    intro a2
    simp only [execute_mcp_tool_directly]
    rw [execute_tool_found loads ⟨true, Option.none, true⟩ server_tools tool
      _ _ _ rfl hstl hf2, executeLoop]
  have herr : execute_mcp_tool_directly loads true server_tools tool args
      (fun _ k => .error (m k)) = .error (.execFailed tool (m 3)) := by
    simp only [execute_mcp_tool_directly]
    rw [execute_tool_found loads ⟨true, Option.none, true⟩ server_tools tool
      _ _ _ rfl hstl hf2, executeLoop_allFail]
  refine ⟨rfl, hok args, herr, ?_, ?_⟩
  · refine ⟨?_, ?_⟩
    · exact match shape_result loads res with
        | .dict mm => dumps (.dict mm)
        | .none => strOf .none
        | .bool b => strOf (.bool b)
        | .int n => strOf (.int n)
        | .float q => strOf (.float q)
        | .str s3 => strOf (.str s3)
        | .list l => strOf (.list l)
    · rw [execute_mcp_tool_async, hok args]
      cases shape_result loads res <;> rfl
  · rw [execute_mcp_tool_async, herr]

/-- Witness for C4 at a one-tool server with a constant failure message. -/
theorem mcp_direct_boundary_spec_witness :
    (execute_mcp_tool_directly jsonLoadsStub false [⟨"t", "", .none⟩] "t"
        (.dict []) (fun _ _ => .error "boom") =
      .error .runtimeNotConnected) ∧
    (execute_mcp_tool_directly jsonLoadsStub true [⟨"t", "", .none⟩] "t"
        (.dict []) (fun _ _ => .ok (some [])) =
      .ok (shape_result jsonLoadsStub (some []))) ∧
    (execute_mcp_tool_directly jsonLoadsStub true [⟨"t", "", .none⟩] "t"
        (.dict []) (fun _ _ => .error "boom") =
      .error (.execFailed "t" "boom")) ∧
    (∃ out, execute_mcp_tool_async jsonLoadsStub (fun _ => "json") (fun _ => "s")
        true [⟨"t", "", .none⟩] "t" (.dict []) (fun _ _ => .ok (some [])) =
      .ok out) ∧
    (execute_mcp_tool_async jsonLoadsStub (fun _ => "json") (fun _ => "s")
        true [⟨"t", "", .none⟩] "t" (.dict []) (fun _ _ => .error "boom") =
      .error (.execFailed "t" "boom")) :=
  mcp_direct_boundary_spec jsonLoadsStub (fun _ => "json") (fun _ => "s")
    [⟨"t", "", .none⟩] "t" (.dict []) (fun _ => "boom") (some []) rfl
